import Mathlib

/-!
Verification of the RoastMyWebsite request pipeline.

This file shallowly embeds the server code (the `POST /roast` pipeline with
APIFlash capture and Supabase persistence, the `POST /screenshot` pipeline of
`app.mjs` with its `isPublicUrl` SSRF gate, the capture-error classifier of the
capture-website backend, the express-rate-limit configuration, and the read
routes) and proves the spec's testable properties about the embedding.

External library functions used by the source (`validator.isURL`,
`validator.isUUID`, `JSON.parse`, `ipaddr.js` address ranges, `Promise.all`,
`express-rate-limit`) are modelled from their documented behaviour; the
handlers themselves are translated line by line from the source.
-/

namespace Roast

/-! ## String utilities (substring search, splitting) -/
/-- `subAt hay needle` : does `needle` occur at the head of `hay`?
Models JavaScript `String.startsWith` / `indexOf(...) === 0`. -/
def subAt : List Char → List Char → Bool
  | _, [] => true
  | [], _ :: _ => false
  | a :: as, b :: bs => a = b && subAt as bs

/-- Substring occurrence helper on character lists. -/
def hasSubAux : List Char → List Char → Bool
  | [], needle => needle.isEmpty
  | h :: t, needle => subAt (h :: t) needle || hasSubAux t needle

/-- `hasSub hay needle` models JavaScript `hay.includes(needle)`. -/
def hasSub (hay needle : String) : Bool :=
  hasSubAux hay.data needle.data

/-- Split a character list at the first occurrence of `"://"`.
Returns the scheme part and the remainder. -/
def splitProto : List Char → Option (List Char × List Char)
  | [] => none
  | c :: t =>
    if subAt (c :: t) [':', '/', '/'] then some ([], t.drop 2)
    else
      match splitProto t with
      | some (a, b) => some (c :: a, b)
      | none => none

/-- Take characters until (excluding) the first occurrence of `stop`. -/
def takeUntilC (stop : Char) : List Char → List Char
  | [] => []
  | c :: t => if c = stop then [] else c :: takeUntilC stop t

/-- Everything after the last `'@'` (the whole list when `'@'` is absent).
Models how a URL authority's host part follows the userinfo. -/
def afterAt (cs : List Char) : List Char :=
  if cs.contains '@' then ((cs.reverse.takeWhile (fun c => c ≠ '@'))).reverse
  else cs

/-- Split at the last `':'` when present: `(before, after)`. -/
def splitLastColon (cs : List Char) : Option (List Char × List Char) :=
  if cs.contains ':' then
    let revAfter := cs.reverse.takeWhile (fun c => c ≠ ':')
    some ((cs.take (cs.length - revAfter.length - 1)), revAfter.reverse)
  else none

/-- Split a character list on a separator character (the list-level
counterpart of JavaScript `String.split`). -/
def splitOnC (sep : Char) : List Char → List (List Char)
  | [] => [[]]
  | c :: t =>
    if c = sep then [] :: splitOnC sep t
    else
      match splitOnC sep t with
      | [] => [[c]]
      | h :: r => (c :: h) :: r

/-- Decimal reading of a digit list (the caller checks digit-ness). -/
def decToNat (ds : List Char) : Nat :=
  ds.foldl (fun acc c => acc * 10 + (c.toNat - 48)) 0

/-! ## Model of `validator.isURL` / `validator.isUUID` (validator.js)

The source calls `validator.isURL(str, { require_protocol: true,
protocols: ["http","https"], require_valid_protocol: true })`.
validator.js rejects strings containing whitespace or angle brackets,
rejects strings of length 2083 or more (its internal `validate_length`
default), requires a protocol from the list, and requires the host to be
an IP address or an FQDN with a TLD. -/
/-- Hexadecimal digit test. -/
def isHexC (c : Char) : Bool :=
  c.isDigit || ('a' ≤ c && c ≤ 'f') || ('A' ≤ c && c ≤ 'F')

/-- One dotted-quad part of an IPv4 literal: `0`–`255`, no leading zeros
(validator.js `isIP` v4 sub-expression). -/
def ipv4PartOK (p : List Char) : Bool :=
  p ≠ [] && p.all Char.isDigit &&
    (p = ['0'] || p.head? ≠ some '0') &&
    decToNat p ≤ 255

/-- validator.js `isIP(host, 4)`: four dot-separated decimal parts. -/
def isIPv4String (h : List Char) : Bool :=
  match splitOnC '.' h with
  | [a, b, c, d] => ipv4PartOK a && ipv4PartOK b && ipv4PartOK c && ipv4PartOK d
  | _ => false

/-- One DNS label per validator.js `isFQDN` defaults: nonempty, at most 63
characters, alphanumeric or hyphen, not starting or ending with a hyphen. -/
def fqdnLabelOK (l : List Char) : Bool :=
  l ≠ [] && l.length ≤ 63 &&
    l.all (fun c => c.isAlphanum || c = '-') &&
    l.head? ≠ some '-' && l.getLast? ≠ some '-'

/-- The TLD per validator.js `isFQDN` defaults (`require_tld: true`):
at least two characters, letters only. -/
def tldOK (l : List Char) : Bool :=
  2 ≤ l.length && l.all Char.isAlpha

/-- validator.js `isFQDN` with default options. -/
def isFQDNStr (h : List Char) : Bool :=
  let parts := splitOnC '.' (h.map Char.toLower)
  match parts.getLast? with
  | none => false
  | some tld => 2 ≤ parts.length && parts.all fqdnLabelOK && tldOK tld

/-- Port check inside validator.js `isURL`: digits, in `0`–`65535`. -/
def portOK (p : List Char) : Bool :=
  p ≠ [] && p.all Char.isDigit && decToNat p ≤ 65535

/-- Host (and optional port) check of validator.js `isURL`. -/
def validHostPort (hostport : List Char) : Bool :=
  match splitLastColon hostport with
  | some (h, p) => (isIPv4String h || isFQDNStr h) && portOK p
  | none => isIPv4String hostport || isFQDNStr hostport

/-- Model of `validator.isURL(str, { require_protocol: true, protocols:
["http","https"], require_valid_protocol: true })` (validator.js):
no whitespace or angle brackets, length below 2083, a `http`/`https`
scheme, and a valid host. This is the `validURL` helper of the source. -/
def validURL (s : String) : Bool :=
  if s.data = [] then false
  else if s.data.any (fun c => c = ' ' || c = '\t' || c = '\n' || c = '\r' || c = '<' || c = '>') then false
  else if 2083 ≤ s.length then false
  else if subAt s.data "mailto:".data then false
  else
    match splitProto s.data with
    | none => false
    | some (proto, rest) =>
      let protoStr := String.mk (proto.map Char.toLower)
      if !(protoStr = "http" || protoStr = "https") then false
      else
        let authority := takeUntilC '/' (takeUntilC '?' (takeUntilC '#' rest))
        if authority = [] then false
        else validHostPort (afterAt authority)

/-- Model of `validator.isUUID(id)` with no version argument:
8-4-4-4-12 hexadecimal groups. -/
def isUUID (s : String) : Bool :=
  match splitOnC '-' s.data with
  | [a, b, c, d, e] =>
    a.length = 8 && b.length = 4 && c.length = 4 && d.length = 4 &&
      e.length = 12 && (a ++ b ++ c ++ d ++ e).all isHexC
  | _ => false

/-! ## Model of `ipaddr.js` parsed addresses (used by `isPublicUrl` in app.mjs) -/
/-- A parsed IPv4 address (the result of `ipaddr.parse` on a dotted quad). -/
structure IPv4 where
  a : Nat
  b : Nat
  c : Nat
  d : Nat
deriving DecidableEq

/-- Model of WHATWG `new URL(s).hostname` for `http(s)` URLs: the authority
before any path/query/fragment, after any userinfo, before any port,
lowercased; `none` when the string has no scheme separator or an empty host
(`new URL` throws there, which `isPublicUrl` catches). -/
def urlHostname (s : String) : Option String :=
  match splitProto s.data with
  | none => none
  | some (_, rest) =>
    let authority := takeUntilC '/' (takeUntilC '?' (takeUntilC '#' rest))
    let hp := afterAt authority
    let host := match splitLastColon hp with
                | some (h, _) => h
                | none => hp
    if host = [] then none else some (String.mk (host.map Char.toLower))

/-! ## Model of `JSON.parse`

The pipeline calls `JSON.parse(analysisResult)` on the provider's response
string and stores the decoded object. We model JSON values with an inductive
type; numbers keep their integer value and an `exact` flag recording whether
the literal was an exact integer (needed for the schema's `type: "integer"`
checks). The parser is fuelled recursive descent; `jsonParse` supplies fuel
larger than the input length, which is enough for every concrete input used
below. -/
/-- A decoded JSON value. -/
inductive Json where
  | null
  | bool (b : Bool)
  | num (m : Int) (exact : Bool)
  | str (s : String)
  | arr (items : List Json)
  | obj (fields : List (String × Json))

/-- The opening brace character, written via its code point. -/
def lbChar : Char := Char.ofNat 123

/-- The closing brace character, written via its code point. -/
def rbChar : Char := Char.ofNat 125

/-- JSON whitespace. -/
def jWs (c : Char) : Bool :=
  c = ' ' || c = '\t' || c = '\n' || c = '\r'

/-- Drop leading JSON whitespace. -/
def skipWs : List Char → List Char
  | [] => []
  | c :: t => if jWs c then skipWs t else c :: t

/-- Numeric value of a hexadecimal digit. -/
def hexVal (c : Char) : Nat :=
  if c.isDigit then c.toNat - 48
  else if 'a' ≤ c && c ≤ 'f' then c.toNat - 87
  else if 'A' ≤ c && c ≤ 'F' then c.toNat - 55
  else 0

/-- Parse the body of a JSON string literal (after the opening quote),
handling the escape sequences of the JSON grammar. Returns the decoded
characters and the rest after the closing quote. -/
def parseStrAux : Nat → List Char → Option (List Char × List Char)
  | 0, _ => none
  | _ + 1, [] => none
  | f + 1, c :: t =>
    if c = '"' then some ([], t)
    else if c = '\\' then
      match t with
      | [] => none
      | e :: t2 =>
        if e = 'u' then
          match t2 with
          | h1 :: h2 :: h3 :: h4 :: t3 =>
            if isHexC h1 && isHexC h2 && isHexC h3 && isHexC h4 then
              match parseStrAux f t3 with
              | some (cs, r) =>
                some (Char.ofNat (((hexVal h1 * 16 + hexVal h2) * 16 + hexVal h3) * 16 + hexVal h4) :: cs, r)
              | none => none
            else none
          | _ => none
        else
          let dec : Option Char :=
            if e = '"' then some '"'
            else if e = '\\' then some '\\'
            else if e = '/' then some '/'
            else if e = 'b' then some (Char.ofNat 8)
            else if e = 'f' then some (Char.ofNat 12)
            else if e = 'n' then some '\n'
            else if e = 'r' then some '\r'
            else if e = 't' then some '\t'
            else none
          match dec with
          | some ch =>
            match parseStrAux f t2 with
            | some (cs, r) => some (ch :: cs, r)
            | none => none
          | none => none
    else
      match parseStrAux f t with
      | some (cs, r) => some (c :: cs, r)
      | none => none

/-- Split leading decimal digits. -/
def takeDigits : List Char → List Char × List Char
  | [] => ([], [])
  | c :: t =>
    if c.isDigit then
      let (a, b) := takeDigits t
      (c :: a, b)
    else ([], c :: t)

/-- Decimal digits to a natural number. -/
def digitsToNat (ds : List Char) : Nat :=
  ds.foldl (fun acc c => acc * 10 + (c.toNat - 48)) 0

/-- Parse a JSON number literal. The integer part is kept exactly; the
`exact` flag is true when the literal denotes that integer (no nonzero
fractional digits and no exponent). -/
def parseNum (cs : List Char) : Option (Json × List Char) :=
  let (neg, cs1) := match cs with
                    | '-' :: t => (true, t)
                    | _ => (false, cs)
  let (ints, cs2) := takeDigits cs1
  if ints = [] then none
  else
    let (fracs, cs3) := match cs2 with
                        | '.' :: t =>
                          let (ds, r) := takeDigits t
                          (ds, if ds = [] then cs2 else r)
                        | _ => ([], cs2)
    let (hasExp, cs4) := match cs3 with
                         | 'e' :: t => (true, (takeDigits (match t with | '+' :: u => u | '-' :: u => u | _ => t)).2)
                         | 'E' :: t => (true, (takeDigits (match t with | '+' :: u => u | '-' :: u => u | _ => t)).2)
                         | _ => (false, cs3)
    let m : Int := if neg then -(digitsToNat ints : Int) else (digitsToNat ints : Int)
    some (.num m (fracs.all (fun c => c = '0') && !hasExp), cs4)

mutual

/-- Fuelled recursive-descent parser for one JSON value. -/
def parseVal : Nat → List Char → Option (Json × List Char)
  | 0, _ => none
  | f + 1, cs =>
    match skipWs cs with
    | [] => none
    | c :: t =>
      if c = '"' then
        match parseStrAux (t.length + 1) t with
        | some (s, r) => some (.str (String.mk s), r)
        | none => none
      else if c = lbChar then
        match skipWs t with
        | c2 :: t2 =>
          if c2 = rbChar then some (.obj [], t2)
          else
            match parseObjMembers f (c2 :: t2) with
            | some (kvs, r) => some (.obj kvs, r)
            | none => none
        | [] => none
      else if c = '[' then
        match skipWs t with
        | ']' :: t2 => some (.arr [], t2)
        | rest =>
          match parseArrItems f rest with
          | some (js, r) => some (.arr js, r)
          | none => none
      else if subAt (c :: t) "true".data then some (.bool true, (c :: t).drop 4)
      else if subAt (c :: t) "false".data then some (.bool false, (c :: t).drop 5)
      else if subAt (c :: t) "null".data then some (.null, (c :: t).drop 4)
      else parseNum (c :: t)

/-- Parse one-or-more comma-separated array items followed by `']'`. -/
def parseArrItems : Nat → List Char → Option (List Json × List Char)
  | 0, _ => none
  | f + 1, cs =>
    match parseVal f cs with
    | none => none
    | some (j, r) =>
      match skipWs r with
      | ',' :: r2 =>
        match parseArrItems f r2 with
        | some (js, r3) => some (j :: js, r3)
        | none => none
      | ']' :: r2 => some ([j], r2)
      | _ => none

/-- Parse one-or-more `"key": value` members followed by the closing brace. -/
def parseObjMembers : Nat → List Char → Option (List (String × Json) × List Char)
  | 0, _ => none
  | f + 1, cs =>
    match skipWs cs with
    | '"' :: t =>
      match parseStrAux (t.length + 1) t with
      | none => none
      | some (k, r) =>
        match skipWs r with
        | ':' :: r2 =>
          match parseVal f r2 with
          | none => none
          | some (v, r3) =>
            match skipWs r3 with
            | ',' :: r4 =>
              match parseObjMembers f r4 with
              | some (kvs, r5) => some ((String.mk k, v) :: kvs, r5)
              | none => none
            | c :: r4 =>
              if c = rbChar then some ([(String.mk k, v)], r4) else none
            | [] => none
        | _ => none
    | _ => none

end

/-- Model of JavaScript `JSON.parse`: `some` on a single well-formed JSON
document (possibly surrounded by whitespace), `none` where `JSON.parse`
throws a `SyntaxError`. -/
def jsonParse (s : String) : Option Json :=
  match parseVal (s.length + 1) s.data with
  | some (j, rest) => if skipWs rest = [] then some j else none
  | none => none

/-! ## The roast schema (`roastSchema` in the source)

The source defines a JSON schema and sends it to the provider inside
`response_format.json_schema` with `strict: true`. The decoded response is
never validated against it by the code; we translate the schema's keywords
into a checker so that theorems can speak about conformance. Note that the
source schema has no `minItems` on `correctiveActions` — the "at least 4"
requirement appears only in its prose `description`. -/
/-- String-typed JSON value. -/
def isStrJ : Json → Bool
  | .str _ => true
  | _ => false

/-- `type: "integer"` with `minimum`/`maximum` bounds. -/
def isIntIn (lo hi : Int) : Json → Bool
  | .num m exact => exact && decide (lo ≤ m) && decide (m ≤ hi)
  | _ => false

/-- The keys of a decoded JSON object. -/
def keysOf (kvs : List (String × Json)) : List String :=
  kvs.map (fun p => p.1)

/-- First binding of a key in a decoded JSON object. -/
def lookupJ (kvs : List (String × Json)) (k : String) : Option Json :=
  (kvs.find? (fun p => p.1 == k)).map (fun p => p.2)

/-- A required field is present and satisfies a predicate. -/
def fieldIs (kvs : List (String × Json)) (k : String) (p : Json → Bool) : Bool :=
  match lookupJ kvs k with
  | some v => p v
  | none => false

/-- One `correctiveActions` item per the source schema: an object with
exactly the required string fields `theOffense` and `theRemedy`. -/
def actionOK : Json → Bool
  | .obj kvs =>
    (keysOf kvs).all (fun k => k == "theOffense" || k == "theRemedy") &&
      fieldIs kvs "theOffense" isStrJ && fieldIs kvs "theRemedy" isStrJ
  | _ => false

/-- The `rehabilitationProgram` sub-object per the source schema. -/
def rehabOK : Json → Bool
  | .obj kvs =>
    (keysOf kvs).all (fun k => k == "priorityOneDirective" || k == "correctiveActions") &&
      fieldIs kvs "priorityOneDirective" isStrJ &&
      (match lookupJ kvs "correctiveActions" with
       | some (.arr items) => items.all actionOK
       | _ => false)
  | _ => false

/-- Conformance to the source `roastSchema`: an object with exactly the
seven required fields, integer bounds on `theVerdict` (1–100) and
`mayhemMeter` (1–10), string fields, and a conforming
`rehabilitationProgram`; `additionalProperties: false` throughout.
The source schema carries no `minItems` bound on `correctiveActions`. -/
def satisfiesRoastSchema : Json → Bool
  | .obj kvs =>
    (keysOf kvs).all (fun k =>
        k == "theVerdict" || k == "mayhemMeter" || k == "culpritProfile" ||
        k == "openingStatement" || k == "caseFiles" || k == "spiritAnimal" ||
        k == "rehabilitationProgram") &&
      fieldIs kvs "theVerdict" (isIntIn 1 100) &&
      fieldIs kvs "mayhemMeter" (isIntIn 1 10) &&
      fieldIs kvs "culpritProfile" isStrJ &&
      fieldIs kvs "openingStatement" isStrJ &&
      fieldIs kvs "caseFiles" isStrJ &&
      fieldIs kvs "spiritAnimal" isStrJ &&
      fieldIs kvs "rehabilitationProgram" rehabOK
  | _ => false

/-- Modelled from the spec: the CritiqueResult schema of the data model,
i.e. the source `roastSchema` (spec field `verdict` = source `theVerdict`,
`profile` = `culpritProfile`, `priorityDirective` = `priorityOneDirective`,
`offense`/`remedy` = `theOffense`/`theRemedy`) strengthened with the spec's
`correctiveActions` length ≥ 4 requirement. -/
def critiqueSchemaOK (j : Json) : Bool :=
  satisfiesRoastSchema j &&
    (match j with
     | .obj kvs =>
       match lookupJ kvs "rehabilitationProgram" with
       | some (.obj r) =>
         match lookupJ r "correctiveActions" with
         | some (.arr items) => 4 ≤ items.length
         | _ => false
       | _ => false
     | _ => false)

/-! ## External effects, records, responses -/
/-- Observable external effects of one request, in program order. Network
calls are `dnsLookup`, `capCall` (capture-website), `fetchCap` (APIFlash),
`openaiCall`, `uploadCall`, `insertCall`; `logE` is a line written to the
operational log (`console.error`). -/
inductive Ev where
  | dnsLookup (host : String)
  | capCall (url : String)
  | fetchCap (url : String)
  | openaiCall
  | uploadCall (path : String)
  | insertCall
  | logE (msg : String)
deriving DecidableEq

/-- A row of the `roasts` table as inserted by `POST /roast`. -/
structure RecordRow where
  id : String
  url : String
  roastJson : Json
  screenshotUrl : String
  visitorId : Option String
  createdAt : Nat

/-- A response body. -/
inductive Body where
  | err (msg : String)
  | record (r : RecordRow)
  | records (rs : List RecordRow)
  | shot (analysis : Json) (screenshot : String)

/-- The error object the OpenAI client produces on a failed request:
optional HTTP status with response body, plus a message. -/
structure OpenAIErr where
  status : Option Nat
  body : String
  message : String
deriving DecidableEq

/-- What `analyzeImage`'s enhanced catch block writes to the log
(`error.response` branch versus plain-message branch). -/
def openaiErrLog (e : OpenAIErr) : String :=
  match e.status with
  | some st => "STATUS: " ++ toString st ++ " DATA: " ++ e.body
  | none => "An unexpected error occurred: " ++ e.message

/-! ## The `POST /roast` pipeline (APIFlash + Supabase version) -/
/-- The external world as seen by the `POST /roast` handler: the APIFlash
key's presence, the capture fetch, sharp recompression, the OpenAI chat
call, the Supabase storage upload (returning the stored path or the
`error` field), the public-URL resolver, and the insert outcome. -/
structure RoastEnv where
  hasApiFlashKey : Bool
  fetchCapture : String → Except String String
  compress : String → Except String String
  openaiChat : String → Except OpenAIErr String
  upload : String → String → Except String String
  publicUrlOf : String → String
  insertErr : Option String
  dbNow : Nat

/-- `getScreenshotFromAPI`: throws when the key is missing, performs the
APIFlash fetch, logs and rethrows a fixed message when the response is not
ok, otherwise returns the image bytes. -/
def getScreenshotFromAPI (env : RoastEnv) (targetUrl : String) :
    Except String String × List Ev :=
  if env.hasApiFlashKey = false then
    (.error "APIFlash API key is not configured.", [])
  else
    match env.fetchCapture targetUrl with
    | .ok img => (.ok img, [.fetchCap targetUrl])
    | .error body =>
      (.error "Failed to capture screenshot via APIFlash.",
       [.fetchCap targetUrl, .logE ("APIFlash Error: " ++ body)])

/-- `analyzeImage` (the version with the enhanced error log): one OpenAI
chat call with the schema-constrained response format; on any error the
full provider detail goes to the log and a fixed message is thrown; on
success the raw `message.content` string is returned unvalidated. -/
def analyzeImage (env : RoastEnv) (b64 : String) :
    Except String String × List Ev :=
  match env.openaiChat b64 with
  | .ok content => (.ok content, [.openaiCall])
  | .error e =>
    (.error "Failed to analyze screenshot with OpenAI Vision. See server logs for full details.",
     [.openaiCall, .logE (openaiErrLog e)])

/-- The `POST /roast` catch-all response. -/
def genericErr : Nat × Body :=
  (500, .err "An unexpected error occurred.")

/-- The `POST /roast` handler, translated step by step: input validation,
APIFlash capture, sharp recompression, `Promise.all` of the storage upload
and `analyzeImage` (both calls are issued once the join is reached),
upload-error check, `JSON.parse`, insert, 200 with the inserted row; every
thrown error lands in the catch-all 500. Returns the response, the record
store after the request, and the effect trace. -/
def roastHandler (env : RoastEnv) (store : List RecordRow) (url : String)
    (visitorId : Option String) (uniqueId : String) :
    (Nat × Body) × List RecordRow × List Ev :=
  if url = "" || !(validURL url) then
    ((400, .err "A valid URL is required."), store, [])
  else
    match getScreenshotFromAPI env url with
    | (.error e, tr) =>
      (genericErr, store, tr ++ [.logE ("Error processing request: " ++ e)])
    | (.ok shot, tr) =>
      match env.compress shot with
      | .error e =>
        (genericErr, store, tr ++ [.logE ("Error processing request: " ++ e)])
      | .ok comp =>
        let path := "public/" ++ uniqueId ++ ".webp"
        let upRes := env.upload path comp
        let anPair := analyzeImage env comp
        let tr2 := tr ++ [.uploadCall path] ++ anPair.2
        match anPair.1 with
        | .error e =>
          (genericErr, store, tr2 ++ [.logE ("Error processing request: " ++ e)])
        | .ok content =>
          match upRes with
          | .error e =>
            (genericErr, store, tr2 ++ [.logE ("Error processing request: " ++ e)])
          | .ok storedPath =>
            match jsonParse content with
            | none =>
              (genericErr, store,
               tr2 ++ [.logE "Error processing request: Unexpected token in JSON"])
            | some analysisObject =>
              let row : RecordRow :=
                ⟨uniqueId, url, analysisObject, env.publicUrlOf storedPath,
                 visitorId, env.dbNow⟩
              match env.insertErr with
              | some e =>
                (genericErr, store,
                 tr2 ++ [.insertCall, .logE ("Error processing request: " ++ e)])
              | none =>
                ((200, .record row), store ++ [row], tr2 ++ [.insertCall])

/-! ## The `POST /screenshot` pipeline (app.mjs, with the SSRF gate) -/
/-- The external world of the app.mjs `POST /screenshot` handler: DNS
resolution (`dns.promises.lookup`, `none` when the hostname does not
resolve), the capture-website call, and the OpenAI chat call. -/
structure ShotEnv where
  dns : String → Option IPv4
  capture : String → Except String String
  openaiChat : String → Except OpenAIErr String

/-- `isPublicUrl` of app.mjs: extract the hostname (`new URL` throwing is
caught and yields `false`) and resolve it (failure yields `false`,
fail-closed). On a resolved address the source evaluates
`addr.range() !== "unspecified" && addr.range() !== "loopback" &&
!addr.isPrivate()`; parsed `ipaddr.js` addresses expose no `isPrivate()`
method (the library's API is `kind()`/`range()`/`match()` and so on), so
when both range tests pass this call throws a TypeError that the enclosing
catch converts to `false`, and when either range test fails the conjunction
is already `false` — every resolved address therefore yields `false`, and
the gate fails closed on all inputs. Returns the verdict and the DNS
trace. -/
def isPublicUrl (dns : String → Option IPv4) (urlToTest : String) :
    Bool × List Ev :=
  match urlHostname urlToTest with
  | none => (false, [])
  | some h =>
    match dns h with
    | none => (false, [.dnsLookup h])
    | some _ => (false, [.dnsLookup h])

/-- `getScreenshot` of app.mjs: any capture-website error is logged and
rethrown as one fixed message (this version performs no classification). -/
def getScreenshot (env : ShotEnv) (url : String) :
    Except String String × List Ev :=
  match env.capture url with
  | .ok img => (.ok img, [.capCall url])
  | .error raw =>
    (.error "Failed to capture screenshot with capture-website.",
     [.capCall url, .logE ("Error making capture-website call: " ++ raw)])

/-- `analyzeImage` of app.mjs: logs the provider message and throws one
fixed message on any error. -/
def analyzeImageApp (env : ShotEnv) (b64 : String) :
    Except String String × List Ev :=
  match env.openaiChat b64 with
  | .ok c => (.ok c, [.openaiCall])
  | .error e =>
    (.error "Failed to analyze screenshot with OpenAI Vision.",
     [.openaiCall, .logE ("Failed to analyze screenshot with OpenAI Vision: " ++ e.message)])

/-- The `catch` block shared by the `/screenshot` handlers: thrown messages
containing one of the three capture-failure fragments are returned verbatim
with status 400; everything else collapses to the generic 500. -/
def screenshotCatch (msg : String) : Nat × Body :=
  if hasSub msg "website address does not seem to exist" ||
     hasSub msg "website took too long to load" ||
     hasSub msg "Could not capture a screenshot" then
    (400, .err msg)
  else
    (500, .err "An unexpected error occurred. Please try again later.")

/-- The app.mjs `POST /screenshot` handler: empty/oversized/invalid URLs are
rejected before any network call, then the SSRF gate, then capture,
analysis, `JSON.parse`, and the JSON response; thrown errors go through
`screenshotCatch`. Returns the response and the effect trace. -/
def screenshotHandler (env : ShotEnv) (url : String) :
    (Nat × Body) × List Ev :=
  if url = "" then
    ((400, .err "URL is required."), [])
  else if 2048 < url.length || !(validURL url) then
    ((400, .err "Invalid URL format. A valid URL (including http:// or https://) is required."), [])
  else
    match isPublicUrl env.dns url with
    | (false, tr) =>
      ((400, .err "The provided URL is not publicly accessible or is a private IP."), tr)
    | (true, tr) =>
      match getScreenshot env url with
      | (.error e, tr2) => (screenshotCatch e, tr ++ tr2)
      | (.ok img, tr2) =>
        match analyzeImageApp env img with
        | (.error e, tr3) => (screenshotCatch e, tr ++ tr2 ++ tr3)
        | (.ok content, tr3) =>
          match jsonParse content with
          | none => (screenshotCatch "Unexpected token in JSON", tr ++ tr2 ++ tr3)
          | some obj => ((200, .shot obj img), tr ++ tr2 ++ tr3)

/-! ## Capture-failure classification (the capture-website `getScreenshot`
of the classifying server version) -/
/-- Fixed user message for the `Unresolvable` kind. -/
def msgUnresolvable : String :=
  "This website address does not seem to exist. Please check the URL for typos."

/-- Fixed user message for the `Timeout` kind. -/
def msgTimeout : String :=
  "This website took too long to load. It might be down, very slow, or protected."

/-- Fixed user message for the `Blocked` kind. -/
def msgBlocked : String :=
  "Could not capture a screenshot. The website may be offline or blocking automated tools."

/-- The classifying `getScreenshot` catch block: a raw backend error
mentioning `ERR_NAME_NOT_RESOLVED` becomes the fixed Unresolvable message,
one mentioning `Navigation timeout` becomes the fixed Timeout message, and
anything else becomes the fixed Blocked message. -/
def classifyCapture (raw : String) : String :=
  if hasSub raw "ERR_NAME_NOT_RESOLVED" then msgUnresolvable
  else if hasSub raw "Navigation timeout" then msgTimeout
  else msgBlocked

/-! ## The `Promise.all` join -/
/-- A settled asynchronous task: the (logical) time at which it settles and
its result — fulfilled with a value or rejected with a reason. -/
structure Timed (α : Type) where
  time : Nat
  result : Except String α

/-- ECMAScript `Promise.all` on two tasks, as used at the upload/analysis
join of `POST /roast`: when both fulfill it fulfills at the later settle
time with the pair; when one rejects it rejects at that task's settle time
with that reason — without waiting for the other task, which still runs to
completion on its own (no cancellation). -/
def promiseAll2 {α β : Type} (t : Timed α) (u : Timed β) : Timed (α × β) :=
  match t.result, u.result with
  | .ok a, .ok b => ⟨Nat.max t.time u.time, .ok (a, b)⟩
  | .error e, .ok _ => ⟨t.time, .error e⟩
  | .ok _, .error e => ⟨u.time, .error e⟩
  | .error e1, .error e2 =>
    if t.time ≤ u.time then ⟨t.time, .error e1⟩ else ⟨u.time, .error e2⟩

/-! ## The rate limiter (`express-rate-limit` configuration) -/
/-- `windowMs: 15 * 60 * 1000`. -/
def rlWindowMs : Nat := 15 * 60 * 1000

/-- `max: 3`. -/
def rlMax : Nat := 3

/-- The fixed rejection body. -/
def rlMessage : String := "Are you trying to bankrupt me? Slow down!"

/-- One per-address counter of the limiter's memory store: the address,
the number of hits in the current window, and the window's reset time. -/
structure RLEntry where
  ip : String
  count : Nat
  reset : Nat
deriving DecidableEq

/-- The limiter's decision for one request: whether it is admitted to the
downstream stage, the rejection body when it is not, and the standard
rate-limit metadata (limit, remaining, reset) sent as headers. -/
structure RLDecision where
  allowed : Bool
  body : Option String
  limit : Nat
  remaining : Nat
  reset : Nat
deriving DecidableEq

/-- One limiter check (`express-rate-limit` with the source's options):
allow-listed addresses are skipped unconditionally (no counting); otherwise
the address's fixed window is consulted (a fresh window starts at the first
hit or after the previous window's reset time has passed), the hit is
counted, and the request is rejected with the fixed message once the count
exceeds `max`. -/
def rlHit (wl : List String) (now : Nat) (ip : String) (st : List RLEntry) :
    RLDecision × List RLEntry :=
  if wl.contains ip then
    (⟨true, none, rlMax, rlMax, now⟩, st)
  else
    let (count, reset) :=
      match st.find? (fun e => e.ip == ip) with
      | some e => if now < e.reset then (e.count, e.reset) else (0, now + rlWindowMs)
      | none => (0, now + rlWindowMs)
    let hits := count + 1
    let st2 := (st.filter (fun e => !(e.ip == ip))) ++ [⟨ip, hits, reset⟩]
    if rlMax < hits then
      (⟨false, some rlMessage, rlMax, rlMax - hits, reset⟩, st2)
    else
      (⟨true, none, rlMax, rlMax - hits, reset⟩, st2)

/-! ## Route registrations -/
/-- An HTTP method. -/
inductive HMethod where
  | get
  | post
deriving DecidableEq

/-- One route registration: method, path, and whether the `limiter`
middleware is attached to it. -/
structure Route where
  method : HMethod
  path : String
  limited : Bool
deriving DecidableEq

/-- The route table of the APIFlash + Supabase server: four GET routes
registered without the limiter, and `POST /roast` registered with it. -/
def appRoutes : List Route :=
  [⟨.get, "/", false⟩,
   ⟨.get, "/roasts", false⟩,
   ⟨.get, "/roasts/:id", false⟩,
   ⟨.get, "/roasts/mine/:visitorId", false⟩,
   ⟨.post, "/roast", true⟩]

/-- The route table of app.mjs: `GET /` without the limiter and
`POST /screenshot` with it. -/
def appMjsRoutes : List Route :=
  [⟨.get, "/", false⟩,
   ⟨.post, "/screenshot", true⟩]

/-- Express dispatch through a route's middleware chain: the limiter runs
only when it is attached to the route; an unlimited route admits the
request without consulting or touching the limiter state. Returns whether
the route handler runs and the limiter state afterwards. -/
def dispatchAdmits (wl : List String) (now : Nat) (ip : String)
    (st : List RLEntry) (r : Route) : Bool × List RLEntry :=
  if r.limited then
    let (d, st2) := rlHit wl now ip st
    (d.allowed, st2)
  else
    (true, st)

/-! ## `GET /roasts/mine/:visitorId` -/
/-- The datastore's answer to the visitor query: `some` error message when
the query itself fails, `none` when it succeeds (with however many rows). -/
structure MineEnv where
  queryErr : Option String

/-- Insert a row into a list sorted by `createdAt` descending. -/
def insertByCreated (r : RecordRow) : List RecordRow → List RecordRow
  | [] => [r]
  | x :: xs =>
    if x.createdAt ≤ r.createdAt then r :: x :: xs
    else x :: insertByCreated r xs

/-- Sort rows newest first (`order("created_at", { ascending: false })`). -/
def sortDescCreated (rs : List RecordRow) : List RecordRow :=
  rs.foldr insertByCreated []

/-- The `GET /roasts/mine/:visitorId` handler: 400 on a malformed visitor
id; 404 with "No roasts found for this visitor." only when the datastore
query reports an error; otherwise 200 with the visitor's rows newest first
— including an empty list when the visitor has none. -/
def roastsMineHandler (env : MineEnv) (store : List RecordRow)
    (visitorId : String) : Nat × Body :=
  if !(isUUID visitorId) then
    (400, .err "Invalid visitor ID format.")
  else
    match env.queryErr with
    | some _ => (404, .err "No roasts found for this visitor.")
    | none =>
      (200, .records (sortDescCreated
        (store.filter (fun r => r.visitorId == some visitorId))))

/-! ## Concrete environments used by counterexamples and witnesses -/
/-- An app.mjs `/screenshot` world where every hostname resolves to the
RFC1918-private address 10.0.0.5. -/
def shotEnvPriv : ShotEnv :=
  ⟨fun _ => some ⟨10, 0, 0, 5⟩, fun _ => .ok "imgbytes", fun _ => .ok "\x7b\x7d"⟩

/-- A `POST /roast` world for the loopback request: capture, recompression
and upload succeed, the provider call fails. -/
def env127 : RoastEnv :=
  ⟨true, fun _ => .ok "imgbytes", fun s => .ok s,
   fun _ => .error ⟨none, "", "boom"⟩, fun p _ => .ok p, id, none, 0⟩

/-- A `POST /roast` world whose APIFlash fetch fails with a timeout body;
everything else succeeds. -/
def envTimeout : RoastEnv :=
  ⟨true, fun _ => .error "Navigation timeout of 30000 ms exceeded",
   fun s => .ok s, fun _ => .ok "unused", fun p _ => .ok p, id, none, 0⟩

/-- A `POST /roast` world where every call succeeds and the provider
returns the JSON text of an empty object. -/
def envLong : RoastEnv :=
  ⟨true, fun _ => .ok "imgbytes", fun s => .ok s, fun _ => .ok "\x7b\x7d",
   fun p _ => .ok p, fun p => "https://cdn/" ++ p, none, 7⟩

/-- A URL of length 2049: a valid `http` URL longer than 2048 characters
but below validator.js's internal 2083 cutoff. -/
def longUrl : String :=
  "http://a.com/" ++ String.mk (List.replicate 2036 'x')

/-- A pre-existing row used to check that the store is left untouched. -/
def rowFix : RecordRow :=
  ⟨"r0", "http://old.com", Json.null, "https://img", none, 3⟩

/-! ## Lemmas and claim theorems -/

/-! ### Evaluation lemmas for the stages of `POST /roast` -/
/-- `getScreenshotFromAPI` under a configured key and a successful fetch. -/
theorem getScreenshotFromAPI_ok (env : RoastEnv) (url img : String)
    (hk : env.hasApiFlashKey = true) (hf : env.fetchCapture url = .ok img) :
    getScreenshotFromAPI env url = (.ok img, [.fetchCap url]) := by
  simp [getScreenshotFromAPI, hk, hf]

/-- `getScreenshotFromAPI` under a configured key and a failed fetch. -/
theorem getScreenshotFromAPI_fetchErr (env : RoastEnv) (url b : String)
    (hk : env.hasApiFlashKey = true) (hf : env.fetchCapture url = .error b) :
    getScreenshotFromAPI env url =
      (.error "Failed to capture screenshot via APIFlash.",
       [.fetchCap url, .logE ("APIFlash Error: " ++ b)]) := by
  simp [getScreenshotFromAPI, hk, hf]

/-- `getScreenshotFromAPI` when the APIFlash key is absent. -/
theorem getScreenshotFromAPI_noKey (env : RoastEnv) (url : String)
    (hk : env.hasApiFlashKey = false) :
    getScreenshotFromAPI env url =
      (.error "APIFlash API key is not configured.", []) := by
  simp [getScreenshotFromAPI, hk]

/-- `analyzeImage` on a successful provider call. -/
theorem analyzeImage_ok (env : RoastEnv) (b64 c : String)
    (ho : env.openaiChat b64 = .ok c) :
    analyzeImage env b64 = (.ok c, [.openaiCall]) := by
  simp [analyzeImage, ho]

/-- `analyzeImage` on a failed provider call: the payload goes to the log,
a fixed message is thrown. -/
theorem analyzeImage_err (env : RoastEnv) (b64 : String) (e : OpenAIErr)
    (ho : env.openaiChat b64 = .error e) :
    analyzeImage env b64 =
      (.error "Failed to analyze screenshot with OpenAI Vision. See server logs for full details.",
       [.openaiCall, .logE (openaiErrLog e)]) := by
  simp [analyzeImage, ho]

/-- `POST /roast` on input that fails validation: 400, no store change,
empty effect trace. -/
theorem roastHandler_validation (env : RoastEnv) (store : List RecordRow)
    (url : String) (vid : Option String) (id : String)
    (h : (url = "" || !(validURL url)) = true) :
    roastHandler env store url vid id =
      ((400, .err "A valid URL is required."), store, []) := by
  rw [roastHandler, h]
  simp only [if_true]

/-! ### Evaluation lemmas for the limiter -/
/-- An allow-listed address is skipped: admitted, no counting. -/
theorem rlHit_skip (wl : List String) (ip : String) (now : Nat) (st : List RLEntry)
    (hwl : wl.contains ip = true) :
    rlHit wl now ip st = (⟨true, none, rlMax, rlMax, now⟩, st) := by
  have h2 : ip ∈ wl := by simpa using hwl
  simp [rlHit, h2]

/-- First hit of an address on an empty store: admitted, a fresh window. -/
theorem rlHit_fresh (wl : List String) (ip : String) (now : Nat)
    (hwl : wl.contains ip = false) :
    rlHit wl now ip [] =
      (⟨true, none, rlMax, 2, now + rlWindowMs⟩, [⟨ip, 1, now + rlWindowMs⟩]) := by
  have h2 : ip ∉ wl := by simpa using hwl
  simp [rlHit, h2, List.find?, rlMax]

/-- A hit inside the current window, still within the limit. -/
theorem rlHit_under (wl : List String) (ip : String) (now cnt rst : Nat)
    (hwl : wl.contains ip = false) (hnow : now < rst) (hc : cnt + 1 ≤ rlMax) :
    rlHit wl now ip [⟨ip, cnt, rst⟩] =
      (⟨true, none, rlMax, rlMax - (cnt + 1), rst⟩, [⟨ip, cnt + 1, rst⟩]) := by
  have h2 : ip ∉ wl := by simpa using hwl
  simp [rlHit, h2, List.find?, hnow, Nat.not_lt.mpr hc]

/-- A hit inside the current window that exceeds the limit: rejected with
the fixed message and the metadata. -/
theorem rlHit_over (wl : List String) (ip : String) (now cnt rst : Nat)
    (hwl : wl.contains ip = false) (hnow : now < rst) (hc : rlMax < cnt + 1) :
    rlHit wl now ip [⟨ip, cnt, rst⟩] =
      (⟨false, some rlMessage, rlMax, rlMax - (cnt + 1), rst⟩, [⟨ip, cnt + 1, rst⟩]) := by
  have h2 : ip ∉ wl := by simpa using hwl
  simp [rlHit, h2, List.find?, hnow, hc]

/-- A hit after the window's reset time: the window restarts, admitted. -/
theorem rlHit_expired (wl : List String) (ip : String) (now cnt rst : Nat)
    (hwl : wl.contains ip = false) (hge : rst ≤ now) :
    rlHit wl now ip [⟨ip, cnt, rst⟩] =
      (⟨true, none, rlMax, 2, now + rlWindowMs⟩, [⟨ip, 1, now + rlWindowMs⟩]) := by
  have h2 : ip ∉ wl := by simpa using hwl
  simp [rlHit, h2, List.find?, Nat.not_lt.mpr hge, rlMax]

/-- `List.any` over a replicated character whose test fails is false. -/
theorem any_replicate_false (n : Nat) (c : Char) (p : Char → Bool) (h : p c = false) :
    (List.replicate n c).any p = false := by
  induction n with
  | zero => rfl
  | succ k ih => simp [List.replicate_succ, h, ih]

/-- `takeUntilC` keeps a replicated character distinct from the stop. -/
theorem takeUntilC_replicate (stop c : Char) (n : Nat) (h : ¬ c = stop) :
    takeUntilC stop (List.replicate n c) = List.replicate n c := by
  induction n with
  | zero => rfl
  | succ k ih => simp [List.replicate_succ, takeUntilC, h, ih]

/-- `splitProto` at the scheme separator. -/
theorem splitProto_hit (t : List Char) :
    splitProto (':' :: '/' :: '/' :: t) = some ([], t) := by
  rw [splitProto]
  simp [subAt]

/-- `splitProto` past one non-separator character. -/
theorem splitProto_step (c : Char) (t a b : List Char)
    (hc : subAt (c :: t) [':', '/', '/'] = false) (h : splitProto t = some (a, b)) :
    splitProto (c :: t) = some (c :: a, b) := by
  rw [splitProto, if_neg (by simp [hc]), h]

/-- `takeUntilC` past one non-stop character. -/
theorem takeUntil_step (stop c : Char) (t r : List Char) (hc : ¬ c = stop)
    (h : takeUntilC stop t = r) : takeUntilC stop (c :: t) = c :: r := by
  rw [takeUntilC, if_neg hc, h]

/-- `takeUntilC` at the stop character. -/
theorem takeUntil_stop (stop : Char) (t : List Char) :
    takeUntilC stop (stop :: t) = [] := by
  rw [takeUntilC, if_pos rfl]

/-- The character data of `longUrl`. -/
theorem longUrl_data :
    longUrl.data = 'h' :: 't' :: 't' :: 'p' :: ':' :: '/' :: '/' ::
      'a' :: '.' :: 'c' :: 'o' :: 'm' :: '/' :: List.replicate 2036 'x' := rfl

/-- `longUrl` has 2049 characters. -/
theorem longUrl_length : longUrl.length = 2049 := by
  show longUrl.data.length = 2049
  rw [longUrl_data]
  simp only [List.length_cons, List.length_replicate]

/-- `longUrl` is not the empty string. -/
theorem longUrl_ne : longUrl ≠ "" := by
  intro h
  have h2 : (2049 : Nat) = 0 := by rw [← longUrl_length, h]; rfl
  exact absurd h2 (by decide)

/-- `longUrl` passes the source's `validURL` check: it is below
validator.js's 2083-character cutoff, carries the `http` scheme, and its
host `a.com` is a well-formed FQDN. -/
theorem validURL_longUrl : validURL longUrl = true := by
  have hsp : splitProto longUrl.data =
      some (['h', 't', 't', 'p'],
        'a' :: '.' :: 'c' :: 'o' :: 'm' :: '/' :: List.replicate 2036 'x') := by
    rw [longUrl_data]
    exact splitProto_step 'h' _ _ _ rfl (splitProto_step 't' _ _ _ rfl
      (splitProto_step 't' _ _ _ rfl (splitProto_step 'p' _ _ _ rfl (splitProto_hit _))))
  have hskip : ∀ stop : Char, ¬ 'a' = stop → ¬ '.' = stop → ¬ 'c' = stop → ¬ 'o' = stop →
      ¬ 'm' = stop → ¬ '/' = stop → ¬ 'x' = stop →
      takeUntilC stop ('a' :: '.' :: 'c' :: 'o' :: 'm' :: '/' :: List.replicate 2036 'x') =
        'a' :: '.' :: 'c' :: 'o' :: 'm' :: '/' :: List.replicate 2036 'x' := by
    intro stop h1 h2 h3 h4 h5 h6 h7
    exact takeUntil_step _ _ _ _ h1 (takeUntil_step _ _ _ _ h2 (takeUntil_step _ _ _ _ h3
      (takeUntil_step _ _ _ _ h4 (takeUntil_step _ _ _ _ h5 (takeUntil_step _ _ _ _ h6
        (takeUntilC_replicate stop 'x' 2036 h7))))))
  have hauth : takeUntilC '/' (takeUntilC '?' (takeUntilC '#'
      ('a' :: '.' :: 'c' :: 'o' :: 'm' :: '/' :: List.replicate 2036 'x'))) =
      ['a', '.', 'c', 'o', 'm'] := by
    rw [hskip '#' (by decide) (by decide) (by decide) (by decide) (by decide) (by decide) (by decide)]
    rw [hskip '?' (by decide) (by decide) (by decide) (by decide) (by decide) (by decide) (by decide)]
    exact takeUntil_step _ _ _ _ (by decide) (takeUntil_step _ _ _ _ (by decide)
      (takeUntil_step _ _ _ _ (by decide) (takeUntil_step _ _ _ _ (by decide)
        (takeUntil_step _ _ _ _ (by decide) (takeUntil_stop '/' _)))))
  have hRx : (List.replicate 2036 'x').any
      (fun c => c = ' ' || c = '\t' || c = '\n' || c = '\r' || c = '<' || c = '>') = false :=
    any_replicate_false _ _ _ rfl
  have hany : (longUrl.data.any
      (fun c => c = ' ' || c = '\t' || c = '\n' || c = '\r' || c = '<' || c = '>')) = false := by
    rw [longUrl_data]
    simp only [List.any_cons, hRx]
    rfl
  rw [validURL, longUrl_length]
  simp only [hany, hsp, hauth]
  rfl

/-- `isPublicUrl` never answers `true`: hostname-extraction failure and
resolution failure are caught to `false`, and on every resolved address the
missing `isPrivate()` method makes the source return `false` as well (see
`isPublicUrl`); the effect trace holds at most the DNS lookup. -/
theorem isPublicUrl_false (dns : String → Option IPv4) (url : String) :
    isPublicUrl dns url =
      (false, match urlHostname url with
              | none => []
              | some h => [Ev.dnsLookup h]) := by
  cases hh : urlHostname url with
  | none => simp [isPublicUrl, hh]
  | some h => cases hd : dns h <;> simp [isPublicUrl, hh, hd]

/-! ## Claims -/
/-- C1 counterexample: The `POST /roast` handler performs no address-based
gating at all: the request for `http://127.0.0.1` passes its validation,
the capture fetch is issued, and the response is the generic 500 — not the
400 "not publicly accessible" rejection the claim requires. -/
theorem C1_counterexample :
    (roastHandler env127 [] "http://127.0.0.1" none "r1").1 =
      (500, Body.err "An unexpected error occurred.") ∧
    Ev.fetchCap "http://127.0.0.1" ∈
      (roastHandler env127 [] "http://127.0.0.1" none "r1").2.2 := by
  exact ⟨rfl, by decide⟩

/-- C1 amended: The SSRF gate lives in the app.mjs `POST /screenshot`
pipeline only, where it fails closed: every URL that passes syntactic
validation — in particular any URL whose hostname resolves to a loopback,
private, link-local, or unspecified address — is rejected with 400
"not publicly accessible or is a private IP" and the Screenshot Acquirer is
never invoked, because the gate's `isPrivate()` call throws on `ipaddr.js`
parsed addresses and its catch converts that to a rejection of every
address. `POST /roast` performs no address-based check at all. -/
theorem C1_ssrf_gate (env : ShotEnv) (url : String)
    (hne : url ≠ "") (hlen : url.length ≤ 2048) (hv : validURL url = true) :
    (screenshotHandler env url).1 =
      (400, Body.err "The provided URL is not publicly accessible or is a private IP.") ∧
    ∀ u, Ev.capCall u ∉ (screenshotHandler env url).2 := by
  have hc2 : (2048 < url.length || !(validURL url)) = false := by
    simp [hv]
    omega
  rw [screenshotHandler, if_neg hne, hc2]
  simp only [Bool.false_eq_true, if_false]
  rw [isPublicUrl_false env.dns url]
  constructor
  · rfl
  · intro u
    cases hh : urlHostname url <;> simp [hh]

/-- C1 witness: A URL whose hostname resolves to the private address
10.0.0.5 is rejected by `POST /screenshot` with the fixed privacy message
and no capture call. -/
theorem C1_witness :
    (screenshotHandler shotEnvPriv "http://10.0.0.5").1 =
      (400, Body.err "The provided URL is not publicly accessible or is a private IP.") ∧
    Ev.capCall "http://10.0.0.5" ∉ (screenshotHandler shotEnvPriv "http://10.0.0.5").2 := by
  have h := C1_ssrf_gate shotEnvPriv "http://10.0.0.5" (by decide) (by decide) rfl
  exact ⟨h.1, h.2 "http://10.0.0.5"⟩

/-- C4 counterexample: A capture timeout on `POST /roast` does not
produce the fixed 400 Timeout message: the handler's catch-all returns the
generic 500 (no Record is written, as the claim also says). -/
theorem C4_counterexample :
    (roastHandler envTimeout [] "https://example.com" none "r4").1 =
      (500, Body.err "An unexpected error occurred.") ∧
    (roastHandler envTimeout [] "https://example.com" none "r4").2.1 = [] ∧
    msgTimeout ≠ "An unexpected error occurred." := by
  exact ⟨rfl, rfl, by decide⟩

/-- C4 amended: The three-way classification belongs to the
capture-website `getScreenshot` used by the `/screenshot` pipeline: every
raw backend error maps to exactly one of the three pairwise-distinct fixed
messages, and that pipeline's catch returns each of them verbatim with
status 400. The `POST /roast` pipeline, by contrast, maps every capture
failure to the generic 500 response and writes no Record. -/
theorem C4_classification :
    (∀ raw, classifyCapture raw = msgUnresolvable ∨ classifyCapture raw = msgTimeout ∨
      classifyCapture raw = msgBlocked) ∧
    (msgUnresolvable ≠ msgTimeout ∧ msgUnresolvable ≠ msgBlocked ∧ msgTimeout ≠ msgBlocked) ∧
    (∀ raw, screenshotCatch (classifyCapture raw) = (400, Body.err (classifyCapture raw))) ∧
    (∀ (env : RoastEnv) (store : List RecordRow) (url : String)
       (vid : Option String) (id b : String),
      url ≠ "" → validURL url = true → env.hasApiFlashKey = true →
      env.fetchCapture url = .error b →
      (roastHandler env store url vid id).1 = (500, Body.err "An unexpected error occurred.") ∧
        (roastHandler env store url vid id).2.1 = store) := by
  refine ⟨?_, by decide, ?_, ?_⟩
  · intro raw
    unfold classifyCapture
    split_ifs <;> simp
  · intro raw
    unfold classifyCapture
    split_ifs <;> rfl
  · intro env store url vid id b hne hv hk hf
    have hcond : (url = "" || !(validURL url)) = false := by simp [hne, hv]
    rw [roastHandler, hcond]
    simp only [Bool.false_eq_true, if_false]
    rw [getScreenshotFromAPI_fetchErr env url b hk hf]
    exact ⟨rfl, rfl⟩

/-- C4 witness: The amended behaviour at concrete inputs: a timeout
body on `POST /roast` gives the generic 500 with no Record, while the
classifier sends a `Navigation timeout` error to the fixed Timeout message,
which the `/screenshot` catch returns with status 400. -/
theorem C4_witness :
    (roastHandler envTimeout [] "https://example.org" none "w4").1 =
      (500, Body.err "An unexpected error occurred.") ∧
    (roastHandler envTimeout [] "https://example.org" none "w4").2.1 = [] ∧
    screenshotCatch (classifyCapture "Navigation timeout of 30000 ms exceeded") =
      (400, Body.err msgTimeout) := by
  have h4 := C4_classification.2.2.2 envTimeout [] "https://example.org" none "w4"
    "Navigation timeout of 30000 ms exceeded" (by decide) rfl rfl rfl
  have h3 := C4_classification.2.2.1 "Navigation timeout of 30000 ms exceeded"
  rw [show classifyCapture "Navigation timeout of 30000 ms exceeded" = msgTimeout from rfl] at h3
  exact ⟨h4.1, h4.2, h3⟩

/-- C6 counterexample: `POST /roast` has no 2048-character bound: a
syntactically valid URL of length 2049 passes its validation (validator.js
only rejects from 2083 characters up), the capture fetch is issued, and
the request succeeds end to end. -/
theorem C6_counterexample :
    2048 < longUrl.length ∧
    (roastHandler envLong [] longUrl none "r6").1.1 = 200 ∧
    Ev.fetchCap longUrl ∈ (roastHandler envLong [] longUrl none "r6").2.2 := by
  have hcond : (longUrl = "" || !(validURL longUrl)) = false := by
    simp [longUrl_ne, validURL_longUrl]
  have hcomp : envLong.compress "imgbytes" = Except.ok "imgbytes" := rfl
  have han : analyzeImage envLong "imgbytes" = (.ok "\x7b\x7d", [.openaiCall]) :=
    analyzeImage_ok _ _ _ rfl
  have hup : envLong.upload ("public/" ++ "r6" ++ ".webp") "imgbytes" =
      Except.ok ("public/" ++ "r6" ++ ".webp") := rfl
  have hjp : jsonParse "\x7b\x7d" = some (Json.obj []) := rfl
  have hins : envLong.insertErr = none := rfl
  have hrun : (roastHandler envLong [] longUrl none "r6").2.2 =
      [Ev.fetchCap longUrl, Ev.uploadCall "public/r6.webp", Ev.openaiCall, Ev.insertCall] := by
    rw [roastHandler, hcond]
    simp only [Bool.false_eq_true, if_false]
    rw [getScreenshotFromAPI_ok envLong longUrl "imgbytes" rfl rfl]
    simp only [hcomp, han, hup, hjp, hins]
    rfl
  have hst : (roastHandler envLong [] longUrl none "r6").1.1 = 200 := by
    rw [roastHandler, hcond]
    simp only [Bool.false_eq_true, if_false]
    rw [getScreenshotFromAPI_ok envLong longUrl "imgbytes" rfl rfl]
    simp only [hcomp, han, hup, hjp, hins]
  refine ⟨by simp [longUrl_length], hst, ?_⟩
  simp [hrun]

/-- C6 amended: Input validation issues no network calls: on
`POST /screenshot` every empty, over-2048-character, or syntactically
invalid input is rejected with 400 and an empty effect trace; on
`POST /roast` the same holds for empty or syntactically invalid inputs
(the explicit length bound is absent there — validator.js's internal 2083
cutoff is the only length limit). -/
theorem C6_validation :
    (∀ (env : ShotEnv) (s : String),
      s = "" ∨ 2048 < s.length ∨ validURL s = false →
      (screenshotHandler env s).1.1 = 400 ∧ (screenshotHandler env s).2 = []) ∧
    (∀ (env : RoastEnv) (store : List RecordRow) (s : String)
       (vid : Option String) (id : String),
      s = "" ∨ validURL s = false →
      roastHandler env store s vid id =
        ((400, Body.err "A valid URL is required."), store, [])) := by
  constructor
  · intro env s hs
    by_cases he : s = ""
    · subst he
      exact ⟨rfl, rfl⟩
    · have hc : (2048 < s.length || !(validURL s)) = true := by
        rcases hs with h | h | h
        · exact absurd h he
        · simp [h]
        · simp [h]
      rw [screenshotHandler, if_neg he, hc]
      exact ⟨rfl, rfl⟩
  · intro env store s vid id hs
    apply roastHandler_validation
    rcases hs with h | h
    · simp [h]
    · simp [h]

/-- C6 witness: A wrong-scheme URL is rejected by both pipelines with
status 400 and an empty effect trace. -/
theorem C6_witness :
    (screenshotHandler shotEnvPriv "ftp://x.com").1.1 = 400 ∧
    (screenshotHandler shotEnvPriv "ftp://x.com").2 = [] ∧
    roastHandler envLong [] "notaurl" none "w6" =
      ((400, Body.err "A valid URL is required."), [], []) := by
  refine ⟨(C6_validation.1 shotEnvPriv "ftp://x.com" (Or.inr (Or.inr rfl))).1,
          (C6_validation.1 shotEnvPriv "ftp://x.com" (Or.inr (Or.inr rfl))).2,
          C6_validation.2 envLong [] "notaurl" none "w6" (Or.inr rfl)⟩

/-- C9: `GET /roasts/mine/{visitorId}` at a well-formed visitor id with
an empty store and a datastore whose query succeeds: the code answers `200`
with an empty list, not the `404` the spec requires when no Record exists
(the handler's 404 branch fires only on a datastore error). -/
theorem C9_code_eval :
    roastsMineHandler ⟨none⟩ [] "00000000-0000-0000-0000-000000000000" =
      (200, Body.records []) := by
  rfl

/-- C10: The limiter middleware is attached exactly to the POST routes:
in both route tables a route carries the limiter iff its method is POST,
and dispatching any GET route admits the request and leaves the limiter
state untouched, whatever that state is. -/
theorem C10_get_routes_unlimited :
    (∀ r ∈ appRoutes, r.limited = true ↔ r.method = HMethod.post) ∧
    (∀ r ∈ appMjsRoutes, r.limited = true ↔ r.method = HMethod.post) ∧
    (∀ r ∈ appRoutes, r.method = HMethod.get →
      ∀ (wl : List String) (now : Nat) (ip : String) (st : List RLEntry),
        dispatchAdmits wl now ip st r = (true, st)) := by
  refine ⟨by decide, by decide, ?_⟩
  intro r hr hm wl now ip st
  fin_cases hr <;> simp_all [dispatchAdmits, appRoutes]

/-- C10 witness: `GET /roasts` is admitted with the limiter state
untouched even when the client address has an exhausted counter. -/
theorem C10_witness :
    dispatchAdmits [] 0 "1.2.3.4" [⟨"1.2.3.4", 99, 50⟩]
      ⟨HMethod.get, "/roasts", false⟩ = (true, [⟨"1.2.3.4", 99, 50⟩]) :=
  C10_get_routes_unlimited.2.2 ⟨HMethod.get, "/roasts", false⟩ (by decide)
    rfl [] 0 "1.2.3.4" [⟨"1.2.3.4", 99, 50⟩]

/-- C5 counterexample: At the upload/analysis join, when the analysis
task rejects at time 1 while the upload task completes at time 5,
`Promise.all` settles (and the request fails) at time 1 — before the
surviving upload branch has completed, contradicting "the other branch is
still awaited before the request fails". -/
theorem C5_counterexample :
    (promiseAll2 (⟨5, .ok 0⟩ : Timed Nat) (⟨1, .error "analysis rejected"⟩ : Timed Nat)).time = 1 ∧
    (promiseAll2 (⟨5, .ok 0⟩ : Timed Nat) (⟨1, .error "analysis rejected"⟩ : Timed Nat)).result =
      .error "analysis rejected" ∧
    (1 : Nat) < 5 := by
  refine ⟨rfl, rfl, by decide⟩

/-- C5 amended: The upload and the critique generation are both
issued once the join is reached (no cancellation: both calls appear in the
effect trace regardless of either outcome), and on joint success the join
settles only once both have completed (at the later settle time); on
failure, however, `Promise.all` rejects at the first rejection without
awaiting the surviving branch. -/
theorem C5_join_behaviour :
    (∀ (α β : Type) (t : Timed α) (u : Timed β) (a : α) (b : β),
      t.result = .ok a → u.result = .ok b →
      promiseAll2 t u = ⟨Nat.max t.time u.time, .ok (a, b)⟩) ∧
    (∀ (env : RoastEnv) (store : List RecordRow) (url : String)
       (vid : Option String) (id img comp : String),
      url ≠ "" → validURL url = true → env.hasApiFlashKey = true →
      env.fetchCapture url = .ok img → env.compress img = .ok comp →
      Ev.uploadCall ("public/" ++ id ++ ".webp") ∈ (roastHandler env store url vid id).2.2 ∧
        Ev.openaiCall ∈ (roastHandler env store url vid id).2.2) := by
  constructor
  · intro α β t u a b ht hu
    cases t with
    | mk tt tr =>
      cases u with
      | mk ut ur => simp_all [promiseAll2]
  · intro env store url vid id img comp hne hv hk hf hc
    have hcond : (url = "" || !(validURL url)) = false := by simp [hne, hv]
    rw [roastHandler, hcond]
    simp only [Bool.false_eq_true, if_false]
    rw [getScreenshotFromAPI_ok env url img hk hf]
    simp only [hc]
    cases ho : env.openaiChat comp with
    | error e => simp [analyzeImage, ho, List.mem_append]
    | ok c =>
      simp only [analyzeImage, ho]
      cases hu : env.upload ("public/" ++ id ++ ".webp") comp with
      | error e => simp [hu, List.mem_append]
      | ok p =>
        simp only [hu]
        cases hj : jsonParse c with
        | none => simp [hj, List.mem_append]
        | some j =>
          simp only [hj]
          cases hi : env.insertErr <;> simp [hi, List.mem_append]

/-- C5 witness: The amended join behaviour at concrete inputs: two
fulfilled tasks settle together at the later time, and in a run whose
provider call fails both the upload call and the provider call still
appear in the effect trace. -/
theorem C5_witness :
    promiseAll2 (⟨4, .ok "u"⟩ : Timed String) (⟨9, .ok "c"⟩ : Timed String) =
      ⟨Nat.max 4 9, .ok ("u", "c")⟩ ∧
    Ev.uploadCall ("public/" ++ "w5" ++ ".webp") ∈
      (roastHandler env127 [] "http://a.com" none "w5").2.2 ∧
    Ev.openaiCall ∈ (roastHandler env127 [] "http://a.com" none "w5").2.2 := by
  have h2 := C5_join_behaviour.2 env127 [] "http://a.com" none "w5" "imgbytes" "imgbytes"
    (by decide) rfl rfl rfl rfl
  exact ⟨C5_join_behaviour.1 String String ⟨4, .ok "u"⟩ ⟨9, .ok "c"⟩ "u" "c" rfl rfl,
    h2.1, h2.2⟩

/-- C7: The limiter is a fixed-window counter per client address with a
15-minute window and at most 3 admitted requests per window: starting from
an empty store, three requests from one non-allow-listed address within a
window are admitted, a 4th within the window is rejected with the fixed
message and limit 3 / remaining 0 / the window's reset time, a 4th request
at or after the reset time is admitted, and a request from an allow-listed
address is admitted with the store untouched, whatever its state. -/
theorem C7_rate_limiter :
    (∀ (wl : List String) (ip : String) (t1 t2 t3 t4 : Nat),
      wl.contains ip = false → t1 ≤ t2 → t2 ≤ t3 → t3 ≤ t4 → t4 < t1 + rlWindowMs →
      (rlHit wl t1 ip []).1.allowed = true ∧
      (rlHit wl t2 ip (rlHit wl t1 ip []).2).1.allowed = true ∧
      (rlHit wl t3 ip (rlHit wl t2 ip (rlHit wl t1 ip []).2).2).1.allowed = true ∧
      (rlHit wl t4 ip (rlHit wl t3 ip (rlHit wl t2 ip (rlHit wl t1 ip []).2).2).2).1 =
        ⟨false, some rlMessage, rlMax, 0, t1 + rlWindowMs⟩) ∧
    (∀ (wl : List String) (ip : String) (t1 t2 t3 t5 : Nat),
      wl.contains ip = false → t1 ≤ t2 → t2 ≤ t3 → t3 < t1 + rlWindowMs →
      t1 + rlWindowMs ≤ t5 →
      (rlHit wl t5 ip (rlHit wl t3 ip (rlHit wl t2 ip (rlHit wl t1 ip []).2).2).2).1.allowed
        = true) ∧
    (∀ (wl : List String) (ip : String) (now : Nat) (st : List RLEntry),
      wl.contains ip = true →
      rlHit wl now ip st = (⟨true, none, rlMax, rlMax, now⟩, st)) := by
  refine ⟨?_, ?_, ?_⟩
  · intro wl ip t1 t2 t3 t4 hwl h12 h23 h34 h4w
    have e1 := rlHit_fresh wl ip t1 hwl
    have e2 := rlHit_under wl ip t2 1 (t1 + rlWindowMs) hwl (by omega) (by decide)
    have e3 := rlHit_under wl ip t3 2 (t1 + rlWindowMs) hwl (by omega) (by decide)
    have e4 := rlHit_over wl ip t4 3 (t1 + rlWindowMs) hwl (by omega) (by decide)
    simp only [e1, e2, e3, e4]
    norm_num [rlMax]
  · intro wl ip t1 t2 t3 t5 hwl h12 h23 h3w h5
    have e1 := rlHit_fresh wl ip t1 hwl
    have e2 := rlHit_under wl ip t2 1 (t1 + rlWindowMs) hwl (by omega) (by decide)
    have e3 := rlHit_under wl ip t3 2 (t1 + rlWindowMs) hwl (by omega) (by decide)
    have e5 := rlHit_expired wl ip t5 3 (t1 + rlWindowMs) hwl (by omega)
    simp only [e1, e2, e3, e5]
  · intro wl ip now st hwl
    exact rlHit_skip wl ip now st hwl

/-- C7 witness: The limiter behaviour at concrete times 0, 1, 2, 3 for
address 1.2.3.4 with an empty allow-list, and the allow-list bypass for an
exhausted counter. -/
theorem C7_witness :
    (rlHit [] 3 "1.2.3.4" (rlHit [] 2 "1.2.3.4" (rlHit [] 1 "1.2.3.4"
        (rlHit [] 0 "1.2.3.4" []).2).2).2).1 =
      ⟨false, some rlMessage, rlMax, 0, 0 + rlWindowMs⟩ ∧
    (rlHit [] rlWindowMs "1.2.3.4" (rlHit [] 2 "1.2.3.4" (rlHit [] 1 "1.2.3.4"
        (rlHit [] 0 "1.2.3.4" []).2).2).2).1.allowed = true ∧
    rlHit ["9.9.9.9"] 5 "9.9.9.9" [⟨"9.9.9.9", 99, 50⟩] =
      (⟨true, none, rlMax, rlMax, 5⟩, [⟨"9.9.9.9", 99, 50⟩]) := by
  refine ⟨(C7_rate_limiter.1 [] "1.2.3.4" 0 1 2 3 rfl (by decide) (by decide) (by decide)
      (by decide)).2.2.2, ?_, ?_⟩
  · exact C7_rate_limiter.2.1 [] "1.2.3.4" 0 1 2 rlWindowMs rfl (by decide) (by decide)
      (by decide) (by decide)
  · exact C7_rate_limiter.2.2 ["9.9.9.9"] "9.9.9.9" 5 [⟨"9.9.9.9", 99, 50⟩] (by decide)

/-- Characterization of the record store after one `POST /roast` request:
either the store is unchanged, or exactly one row was appended — and in
that case the key was configured, capture, recompression, generation and
upload all succeeded, the provider string parsed as JSON, the insert
reported no error, and the appended row is assembled from those results. -/
theorem roastHandler_store_cases (env : RoastEnv) (store : List RecordRow)
    (url : String) (vid : Option String) (id : String) :
    (roastHandler env store url vid id).2.1 = store ∨
    ∃ img comp p c j, env.hasApiFlashKey = true ∧ env.fetchCapture url = .ok img ∧
      env.compress img = .ok comp ∧ env.openaiChat comp = .ok c ∧
      env.upload ("public/" ++ id ++ ".webp") comp = .ok p ∧ jsonParse c = some j ∧
      env.insertErr = none ∧
      (roastHandler env store url vid id).2.1 =
        store ++ [⟨id, url, j, env.publicUrlOf p, vid, env.dbNow⟩] := by
  by_cases hval : (url = "" || !(validURL url)) = true
  · left
    rw [roastHandler_validation env store url vid id hval]
  · have hval2 : (url = "" || !(validURL url)) = false := by simpa using hval
    cases hk : env.hasApiFlashKey with
    | false =>
      left
      rw [roastHandler, hval2]
      simp only [Bool.false_eq_true, if_false]
      rw [getScreenshotFromAPI_noKey env url hk]
    | true =>
      cases hf : env.fetchCapture url with
      | error b =>
        left
        rw [roastHandler, hval2]
        simp only [Bool.false_eq_true, if_false]
        rw [getScreenshotFromAPI_fetchErr env url b hk hf]
      | ok img =>
        cases hc : env.compress img with
        | error e =>
          left
          rw [roastHandler, hval2]
          simp only [Bool.false_eq_true, if_false]
          rw [getScreenshotFromAPI_ok env url img hk hf]
          simp only [hc]
        | ok comp =>
          cases ho : env.openaiChat comp with
          | error e =>
            left
            rw [roastHandler, hval2]
            simp only [Bool.false_eq_true, if_false]
            rw [getScreenshotFromAPI_ok env url img hk hf]
            simp only [hc, analyzeImage_err env comp e ho]
          | ok c =>
            cases hu : env.upload ("public/" ++ id ++ ".webp") comp with
            | error e =>
              left
              rw [roastHandler, hval2]
              simp only [Bool.false_eq_true, if_false]
              rw [getScreenshotFromAPI_ok env url img hk hf]
              simp only [hc, analyzeImage_ok env comp c ho, hu]
            | ok p =>
              cases hj : jsonParse c with
              | none =>
                left
                rw [roastHandler, hval2]
                simp only [Bool.false_eq_true, if_false]
                rw [getScreenshotFromAPI_ok env url img hk hf]
                simp only [hc, analyzeImage_ok env comp c ho, hu, hj]
              | some j =>
                cases hins : env.insertErr with
                | some e =>
                  left
                  rw [roastHandler, hval2]
                  simp only [Bool.false_eq_true, if_false]
                  rw [getScreenshotFromAPI_ok env url img hk hf]
                  simp only [hc, analyzeImage_ok env comp c ho, hu, hj, hins]
                | none =>
                  right
                  refine ⟨img, comp, p, c, j, rfl, rfl, hc, ho, hu, hj, rfl, ?_⟩
                  rw [roastHandler, hval2]
                  simp only [Bool.false_eq_true, if_false]
                  rw [getScreenshotFromAPI_ok env url img hk hf]
                  simp only [hc, analyzeImage_ok env comp c ho, hu, hj, hins]

/-- C2: The commit is atomic with respect to the record store: a row is
appended only when the upload and the critique generation (and everything
they depend on) both succeeded, and whenever the upload or the generation
fails — whichever of the two — the store is left exactly as it was. -/
theorem C2_insert_atomicity :
    ∀ (env : RoastEnv) (store : List RecordRow) (url : String)
      (vid : Option String) (id : String),
    ((roastHandler env store url vid id).2.1 ≠ store →
      ∃ img comp p c, env.fetchCapture url = .ok img ∧ env.compress img = .ok comp ∧
        env.upload ("public/" ++ id ++ ".webp") comp = .ok p ∧
        env.openaiChat comp = .ok c) ∧
    (∀ img comp, env.fetchCapture url = .ok img → env.compress img = .ok comp →
      ((∃ e, env.upload ("public/" ++ id ++ ".webp") comp = .error e) ∨
        (∃ e, env.openaiChat comp = .error e)) →
      (roastHandler env store url vid id).2.1 = store) := by
  intro env store url vid id
  constructor
  · intro hne
    rcases roastHandler_store_cases env store url vid id with h |
      ⟨img, comp, p, c, j, hk, hf, hc, ho, hu, hj, hins, hst⟩
    · exact absurd h hne
    · exact ⟨img, comp, p, c, hf, hc, hu, ho⟩
  · intro img comp hf hc herr
    rcases roastHandler_store_cases env store url vid id with h |
      ⟨img2, comp2, p, c, j, hk, hf2, hc2, ho, hu, hj, hins, hst⟩
    · exact h
    · exfalso
      have h1 := hf.symm.trans hf2
      injection h1 with h1
      subst h1
      have h2 := hc.symm.trans hc2
      injection h2 with h2
      subst h2
      rcases herr with ⟨e, he⟩ | ⟨e, he⟩
      · rw [he] at hu
        exact Except.noConfusion hu
      · rw [he] at ho
        exact Except.noConfusion ho

/-- C2 witness: With the upload succeeding and the provider call
failing, a request leaves the one-row store exactly as it was. -/
theorem C2_witness :
    (roastHandler env127 [rowFix] "http://a.com" none "w2").2.1 = [rowFix] :=
  (C2_insert_atomicity env127 [rowFix] "http://a.com" none "w2").2 "imgbytes" "imgbytes"
    rfl rfl (Or.inr ⟨⟨none, "", "boom"⟩, rfl⟩)

/-- C3 counterexample: No re-validation happens before insertion: with
the provider returning the JSON text of an empty object (valid JSON that
violates the schema), the request succeeds and commits a Record whose
critique fails both the source `roastSchema` checks and the spec's
CritiqueResult schema. -/
theorem C3_counterexample :
    (roastHandler envLong [] "http://a.com" none "r3").2.1 =
      [⟨"r3", "http://a.com", Json.obj [], "https://cdn/public/r3.webp", none, 7⟩] ∧
    satisfiesRoastSchema (Json.obj []) = false ∧
    critiqueSchemaOK (Json.obj []) = false ∧
    (roastHandler envLong [] "http://a.com" none "r3").1.1 = 200 := by
  exact ⟨rfl, rfl, rfl, rfl⟩

/-- C3 amended: Every committed Record's critique is exactly the
JSON value obtained by `JSON.parse` of the provider's response string —
nothing more is checked: no schema validation is applied to the decoded
value before insertion (the schema, sent to the provider with
`strict: true`, is the only enforcement, and the source schema carries no
`minItems` bound on `correctiveActions`). -/
theorem C3_critique_unvalidated :
    ∀ (env : RoastEnv) (store : List RecordRow) (url : String)
      (vid : Option String) (id : String) (r : RecordRow),
    (roastHandler env store url vid id).2.1 = store ++ [r] →
    ∃ img comp content, env.fetchCapture url = .ok img ∧
      env.compress img = .ok comp ∧ env.openaiChat comp = .ok content ∧
      jsonParse content = some r.roastJson := by
  intro env store url vid id r hst
  rcases roastHandler_store_cases env store url vid id with h |
    ⟨img, comp, p, c, j, hk, hf, hc, ho, hu, hj, hins, hst2⟩
  · rw [h] at hst
    exfalso
    have h2 := congrArg List.length hst
    simp at h2
  · rw [hst2] at hst
    have h3 : ([⟨id, url, j, env.publicUrlOf p, vid, env.dbNow⟩] : List RecordRow) = [r] :=
      List.append_cancel_left hst
    have h4 : (⟨id, url, j, env.publicUrlOf p, vid, env.dbNow⟩ : RecordRow) = r :=
      List.head_eq_of_cons_eq h3
    refine ⟨img, comp, c, hf, hc, ho, ?_⟩
    rw [← h4]
    exact hj

/-- C3 witness: The amended statement at a concrete run: the committed
row's critique is the parse of the provider's empty-object JSON string. -/
theorem C3_witness :
    ∃ img comp content, envLong.fetchCapture "http://b.com" = .ok img ∧
      envLong.compress img = .ok comp ∧ envLong.openaiChat comp = .ok content ∧
      jsonParse content = some
        ((⟨"w3", "http://b.com", Json.obj [], "https://cdn/public/w3.webp", none, 7⟩ :
          RecordRow)).roastJson :=
  C3_critique_unvalidated envLong [] "http://b.com" none "w3"
    ⟨"w3", "http://b.com", Json.obj [], "https://cdn/public/w3.webp", none, 7⟩ rfl

/-- C8: Generation failures collapse to a generic message: a provider
error yields the fixed 500 body with the provider's detail written to the
log only and no Record inserted; a parse failure of the provider string
yields the same fixed 500 body; and the response is independent of the
provider's error payload — two worlds differing only in that payload
produce identical responses. -/
theorem C8_generic_generation_errors :
    (∀ (env : RoastEnv) (store : List RecordRow) (url : String) (vid : Option String)
       (id img comp : String) (e : OpenAIErr),
      url ≠ "" → validURL url = true → env.hasApiFlashKey = true →
      env.fetchCapture url = .ok img → env.compress img = .ok comp →
      env.openaiChat comp = .error e →
      (roastHandler env store url vid id).1 = (500, Body.err "An unexpected error occurred.") ∧
      (roastHandler env store url vid id).2.1 = store ∧
      Ev.logE (openaiErrLog e) ∈ (roastHandler env store url vid id).2.2) ∧
    (∀ (env : RoastEnv) (store : List RecordRow) (url : String) (vid : Option String)
       (id img comp c : String),
      url ≠ "" → validURL url = true → env.hasApiFlashKey = true →
      env.fetchCapture url = .ok img → env.compress img = .ok comp →
      env.openaiChat comp = .ok c → jsonParse c = none →
      (roastHandler env store url vid id).1 =
        (500, Body.err "An unexpected error occurred.")) ∧
    (∀ (hk : Bool) (fetch compress : String → Except String String)
       (upl : String → String → Except String String) (pub : String → String)
       (ins : Option String) (dbn : Nat) (p q : OpenAIErr)
       (store : List RecordRow) (url : String) (vid : Option String) (id : String),
      (roastHandler ⟨hk, fetch, compress, fun _ => .error p, upl, pub, ins, dbn⟩
        store url vid id).1 =
      (roastHandler ⟨hk, fetch, compress, fun _ => .error q, upl, pub, ins, dbn⟩
        store url vid id).1) := by
  refine ⟨?_, ?_, ?_⟩
  · intro env store url vid id img comp e hne hv hk hf hc ho
    have hcond : (url = "" || !(validURL url)) = false := by simp [hne, hv]
    rw [roastHandler, hcond]
    simp only [Bool.false_eq_true, if_false]
    rw [getScreenshotFromAPI_ok env url img hk hf]
    simp only [hc, analyzeImage_err env comp e ho]
    refine ⟨rfl, by simp, by simp [List.mem_append]⟩
  · intro env store url vid id img comp c hne hv hk hf hc ho hj
    have hcond : (url = "" || !(validURL url)) = false := by simp [hne, hv]
    rw [roastHandler, hcond]
    simp only [Bool.false_eq_true, if_false]
    rw [getScreenshotFromAPI_ok env url img hk hf]
    cases hu : env.upload ("public/" ++ id ++ ".webp") comp with
    | error e =>
      simp only [hc, analyzeImage_ok env comp c ho, hu]
      rfl
    | ok p =>
      simp only [hc, analyzeImage_ok env comp c ho, hu, hj]
      rfl
  · intro hk fetch compress upl pub ins dbn p q store url vid id
    by_cases hval : (url = "" || !(validURL url)) = true
    · rw [roastHandler_validation _ _ _ _ _ hval, roastHandler_validation _ _ _ _ _ hval]
    · have hval2 : (url = "" || !(validURL url)) = false := by simpa using hval
      cases hk with
      | false =>
        rw [roastHandler, hval2, roastHandler, hval2]
        simp only [Bool.false_eq_true, if_false]
        rw [getScreenshotFromAPI_noKey _ url rfl, getScreenshotFromAPI_noKey _ url rfl]
      | true =>
        cases hf : fetch url with
        | error b =>
          rw [roastHandler, hval2, roastHandler, hval2]
          simp only [Bool.false_eq_true, if_false]
          rw [getScreenshotFromAPI_fetchErr _ url b rfl hf,
            getScreenshotFromAPI_fetchErr _ url b rfl hf]
        | ok img =>
          rw [roastHandler, hval2, roastHandler, hval2]
          simp only [Bool.false_eq_true, if_false]
          rw [getScreenshotFromAPI_ok _ url img rfl hf, getScreenshotFromAPI_ok _ url img rfl hf]
          cases hc : compress img with
          | error e => simp only [hc]
          | ok comp =>
            simp only [hc,
              analyzeImage_err ⟨true, fetch, compress, fun _ => .error p, upl, pub, ins, dbn⟩
                comp p rfl,
              analyzeImage_err ⟨true, fetch, compress, fun _ => .error q, upl, pub, ins, dbn⟩
                comp q rfl]

/-- C8 witness: A provider failure with payload "boom" at a concrete
run: generic 500 response, untouched store, and the payload's log line in
the effect trace. -/
theorem C8_witness :
    (roastHandler env127 [] "http://c.com" none "w8").1 =
      (500, Body.err "An unexpected error occurred.") ∧
    (roastHandler env127 [] "http://c.com" none "w8").2.1 = [] ∧
    Ev.logE (openaiErrLog ⟨none, "", "boom"⟩) ∈
      (roastHandler env127 [] "http://c.com" none "w8").2.2 :=
  C8_generic_generation_errors.1 env127 [] "http://c.com" none "w8" "imgbytes" "imgbytes"
    ⟨none, "", "boom"⟩ (by decide) rfl rfl rfl rfl rfl

end Roast
